import Mathlib

/-!
Verification of the r3f-procedural-grass grass pipeline.

The GLSL/TSL shader code is shallowly embedded: the rational-arithmetic
parts of the vertex shader (culling, wind falloff, LOD vertex folding) are
modelled over `ℚ`, and the transcendental parts (hash functions built from
`sin`, Voronoi clump search with `sqrt`, wind facing with `atan`) over `ℝ`.
External noise functions included from `fractal.glsl` are passed as explicit
function parameters.
-/

-- ============================================================================
-- GLSL scalar primitives over ℚ  (clamp, step, smoothstep, mix)
-- ============================================================================

/-- GLSL `clamp(x, lo, hi) = min(max(x, lo), hi)`. -/
def clampQ (x lo hi : ℚ) : ℚ := min (max x lo) hi

/-- GLSL `step(edge, x)`: 0.0 when `x < edge`, 1.0 when `x ≥ edge`. -/
def stepQ (edge x : ℚ) : ℚ := if edge ≤ x then 1 else 0

/-- GLSL `smoothstep(e0, e1, x)`: clamp `(x-e0)/(e1-e0)` to [0,1] then apply
the cubic Hermite polynomial `t*t*(3-2t)`. -/
def smoothstepQ (e0 e1 x : ℚ) : ℚ :=
  let t := clampQ ((x - e0) / (e1 - e0)) 0 1
  t * t * (3 - 2 * t)

/-- GLSL `mix(x, y, a) = x*(1-a) + y*a`. -/
def mixQ (x y a : ℚ) : ℚ := x * (1 - a) + y * a

-- ============================================================================
-- Vertex shader: per-instance density culling (grassVertex.glsl, step 9)
-- ============================================================================

/-- `cullWeight = smoothstep(uCullParams.x, uCullParams.y, dist)` from the
per-instance culling block of `grassVertex.glsl`. -/
def cullWeight (cullStart cullEnd dist : ℚ) : ℚ :=
  smoothstepQ cullStart cullEnd dist

/-- `isCulled = step(1.0 - cullWeight, perBladeHash01)` from
`grassVertex.glsl`. -/
def isCulled (cullStart cullEnd dist perBladeHash01 : ℚ) : ℚ :=
  stepQ (1 - cullWeight cullStart cullEnd dist) perBladeHash01

/-- `shrinkGate = smoothstep(1.0 - cullWeight, 1.0 - cullWeight + 0.1,
perBladeHash01)` from `grassVertex.glsl`. -/
def shrinkGate (cullStart cullEnd dist perBladeHash01 : ℚ) : ℚ :=
  smoothstepQ (1 - cullWeight cullStart cullEnd dist)
    (1 - cullWeight cullStart cullEnd dist + 1/10) perBladeHash01

/-- `finalPresence = presence * (1.0 - isCulled) * (1.0 - shrinkGate)` from
`grassVertex.glsl`. -/
def finalPresence (cullStart cullEnd dist perBladeHash01 presence : ℚ) : ℚ :=
  presence * (1 - isCulled cullStart cullEnd dist perBladeHash01)
    * (1 - shrinkGate cullStart cullEnd dist perBladeHash01)

-- ============================================================================
-- Vertex shader: wind distance falloff (grassVertex.glsl, step 4)
-- ============================================================================

/-- Wind distance falloff from `grassVertex.glsl`: starts at `1.0`, and when
`uWindDistanceRange.y > 0.0` is replaced by
`1.0 - smoothstep(uWindDistanceRange.x, uWindDistanceRange.y, dist)`. -/
def windDistanceFalloff (wStart wEnd dist : ℚ) : ℚ :=
  if 0 < wEnd then 1 - smoothstepQ wStart wEnd dist else 1

-- ============================================================================
-- Vertex shader: LOD vertex folding (grassVertex.glsl, calculateLODPositionT)
-- ============================================================================

/-- `vertexRow = floor(shapeT * totalSegments + 0.5)` with
`totalSegments = 14.0`, from `calculateLODPositionT`. -/
def vertexRow (shapeT : ℚ) : ℤ := ⌊shapeT * 14 + 1/2⌋

/-- `foldedRow = floor(vertexRow / 2.0) * 2.0` from `calculateLODPositionT`. -/
def foldRow (r : ℤ) : ℤ := ⌊(r : ℚ) / 2⌋ * 2

/-- `positionT = mix(vertexRow, foldedRow, step(0.5, lodWeight)) /
totalSegments` from `calculateLODPositionT`, with the camera-distance
dependent `lodWeight = smoothstep(uLODRange.x, uLODRange.y, dist)` taken as a
parameter. -/
def lodPositionT (lodWeight shapeT : ℚ) : ℚ :=
  mixQ (vertexRow shapeT) (foldRow (vertexRow shapeT)) (stepQ (1/2) lodWeight) / 14

-- ============================================================================
-- Helper lemmas on the ℚ primitives
-- ============================================================================

theorem clampQ_le (x lo hi : ℚ) : clampQ x lo hi ≤ hi := min_le_right _ _

theorem le_clampQ (x lo hi : ℚ) (h : lo ≤ hi) : lo ≤ clampQ x lo hi :=
  le_min (le_max_right _ _) h

theorem clampQ_mono (x y lo hi : ℚ) (h : x ≤ y) : clampQ x lo hi ≤ clampQ y lo hi :=
  min_le_min (max_le_max h le_rfl) le_rfl

/-- The Hermite polynomial `t*t*(3-2t)` is monotone on `[0,1]`. -/
theorem hermite_mono (a b : ℚ) (ha : 0 ≤ a) (hab : a ≤ b) (hb : b ≤ 1) :
    a * a * (3 - 2 * a) ≤ b * b * (3 - 2 * b) := by
  nlinarith [sq_nonneg (b - a), sq_nonneg (a + b), mul_nonneg ha (sub_nonneg.mpr hab)]

theorem smoothstepQ_of_le (e0 e1 x : ℚ) (h0 : e0 < e1) (hx : x ≤ e0) :
    smoothstepQ e0 e1 x = 0 := by
  have hnum : x - e0 ≤ 0 := by linarith
  have hden : 0 < e1 - e0 := by linarith
  have hq : (x - e0) / (e1 - e0) ≤ 0 := div_nonpos_of_nonpos_of_nonneg hnum hden.le
  have ht : clampQ ((x - e0) / (e1 - e0)) 0 1 = 0 := by
    unfold clampQ
    rw [max_eq_right hq, min_eq_left]; norm_num
  simp [smoothstepQ, ht]

theorem smoothstepQ_of_ge (e0 e1 x : ℚ) (h0 : e0 < e1) (hx : e1 ≤ x) :
    smoothstepQ e0 e1 x = 1 := by
  have hden : 0 < e1 - e0 := by linarith
  have hq : 1 ≤ (x - e0) / (e1 - e0) := (one_le_div hden).mpr (by linarith)
  have ht : clampQ ((x - e0) / (e1 - e0)) 0 1 = 1 := by
    unfold clampQ
    rw [max_eq_left (by linarith), min_eq_right hq]
  rw [smoothstepQ, ht]; ring

theorem smoothstepQ_lt_one (e0 e1 x : ℚ) (h0 : e0 < e1) (hx : x < e1) :
    smoothstepQ e0 e1 x < 1 := by
  have hden : 0 < e1 - e0 := by linarith
  have hq : (x - e0) / (e1 - e0) < 1 := (div_lt_one hden).mpr (by linarith)
  set t := clampQ ((x - e0) / (e1 - e0)) 0 1 with ht
  have ht0 : 0 ≤ t := le_clampQ _ _ _ (by norm_num)
  have ht1 : t < 1 := by
    have : max ((x - e0) / (e1 - e0)) 0 < 1 := max_lt hq (by norm_num)
    calc t ≤ max ((x - e0) / (e1 - e0)) 0 := min_le_left _ _
    _ < 1 := this
  show t * t * (3 - 2 * t) < 1
  nlinarith [sq_nonneg (1 - t)]

-- ============================================================================
-- C4: density culling with cullStart = 15, cullEnd = 30, blade hash 0.0
-- ============================================================================

/-- C4: with cull parameters `cullStart = 15` and `cullEnd = 30`, a blade
whose `perBladeHash01` is exactly `0` has `isCulled = 0` at every camera
distance `d < 30`, and at every distance `d ≥ 30` its `finalPresence` is `0`
whatever its clump presence value is. -/
theorem cull_threshold_boundary (d presence : ℚ) :
    (d < 30 → isCulled 15 30 d 0 = 0) ∧
    (30 ≤ d → finalPresence 15 30 d 0 presence = 0) := by
  constructor
  · intro hd
    have hcw : cullWeight 15 30 d < 1 := smoothstepQ_lt_one 15 30 d (by norm_num) hd
    have : ¬ (1 - cullWeight 15 30 d ≤ 0) := by linarith
    simp [isCulled, stepQ, this]
  · intro hd
    have hcw : cullWeight 15 30 d = 1 := smoothstepQ_of_ge 15 30 d (by norm_num) hd
    have h1 : isCulled 15 30 d 0 = 1 := by
      simp [isCulled, stepQ, hcw]
    rw [finalPresence, h1]; ring

/-- Witness for C4 at the concrete distances 10 (inside) and 35 (beyond). -/
theorem cull_threshold_boundary_witness :
    isCulled 15 30 10 0 = 0 ∧ finalPresence 15 30 35 0 (1/2) = 0 :=
  ⟨(cull_threshold_boundary 10 (1/2)).1 (by norm_num),
   (cull_threshold_boundary 35 (1/2)).2 (by norm_num)⟩

-- ============================================================================
-- C5: wind distance falloff boundary values
-- ============================================================================

/-- C5: with `0 < windDistanceEnd` and `windDistanceStart < windDistanceEnd`,
the wind distance falloff `1 - smoothstep(start, end, d)` equals `1` at every
camera distance `d ≤ windDistanceStart` and equals `0` at every
`d ≥ windDistanceEnd`. -/
theorem wind_falloff_boundary (wStart wEnd d : ℚ)
    (hpos : 0 < wEnd) (hlt : wStart < wEnd) :
    (d ≤ wStart → windDistanceFalloff wStart wEnd d = 1) ∧
    (wEnd ≤ d → windDistanceFalloff wStart wEnd d = 0) := by
  constructor
  · intro hd
    rw [windDistanceFalloff, if_pos hpos, smoothstepQ_of_le wStart wEnd d hlt hd]
    ring
  · intro hd
    rw [windDistanceFalloff, if_pos hpos, smoothstepQ_of_ge wStart wEnd d hlt hd]
    ring

/-- Witness for C5 at the configured defaults `start = 10`, `end = 30`, with
camera distances 5 (near) and 40 (far). -/
theorem wind_falloff_boundary_witness :
    windDistanceFalloff 10 30 5 = 1 ∧ windDistanceFalloff 10 30 40 = 0 :=
  ⟨(wind_falloff_boundary 10 30 5 (by norm_num) (by norm_num)).1 (by norm_num),
   (wind_falloff_boundary 10 30 40 (by norm_num) (by norm_num)).2 (by norm_num)⟩

-- ============================================================================
-- C6: LOD vertex-row folding is idempotent
-- ============================================================================

theorem foldRow_even (r : ℤ) : 2 ∣ foldRow r :=
  Dvd.intro ⌊(r : ℚ) / 2⌋ (mul_comm _ _)

theorem foldRow_of_even (r : ℤ) (h : 2 ∣ r) : foldRow r = r := by
  obtain ⟨k, rfl⟩ := h
  have : ((2 * k : ℤ) : ℚ) / 2 = (k : ℚ) := by push_cast; ring
  rw [foldRow, this, Int.floor_intCast, mul_comm]

theorem vertexRow_int (r : ℤ) : vertexRow ((r : ℚ) / 14) = r := by
  have h14 : ((r : ℚ) / 14) * 14 = (r : ℚ) := by
    field_simp
  rw [vertexRow, h14, Int.floor_int_add]
  norm_num

/-- C6: the LOD vertex-row fold of `calculateLODPositionT` maps every row to
an even row, every even row is a fixed point of the fold, and for every
`shapeT ∈ [0,1]` and every LOD weight, applying `calculateLODPositionT` to
its own output returns the same `positionT` as a single application. -/
theorem lod_fold_idempotent (lodWeight shapeT : ℚ)
    (h0 : 0 ≤ shapeT) (h1 : shapeT ≤ 1) :
    2 ∣ foldRow (vertexRow shapeT) ∧
    (∀ r : ℤ, 2 ∣ r → foldRow r = r) ∧
    lodPositionT lodWeight (lodPositionT lodWeight shapeT) =
      lodPositionT lodWeight shapeT := by
  refine ⟨foldRow_even _, fun r hr => foldRow_of_even r hr, ?_⟩
  by_cases hw : (1/2 : ℚ) ≤ lodWeight
  · have hstep : stepQ (1/2) lodWeight = 1 := by rw [stepQ, if_pos hw]
    have hmix : ∀ a b : ℚ, mixQ a b 1 = b := by intro a b; rw [mixQ]; ring
    have hfirst : lodPositionT lodWeight shapeT =
        ((foldRow (vertexRow shapeT) : ℚ)) / 14 := by
      rw [lodPositionT, hstep, hmix]
    rw [hfirst, lodPositionT, vertexRow_int, hstep, hmix,
      foldRow_of_even _ (foldRow_even _)]
  · have hstep : stepQ (1/2) lodWeight = 0 := by rw [stepQ, if_neg hw]
    have hmix : ∀ a b : ℚ, mixQ a b 0 = a := by intro a b; rw [mixQ]; ring
    have hfirst : lodPositionT lodWeight shapeT =
        ((vertexRow shapeT : ℚ)) / 14 := by
      rw [lodPositionT, hstep, hmix]
    rw [hfirst, lodPositionT, vertexRow_int, hstep, hmix]

/-- Witness for C6 at LOD weight `1` (fully folded) and `shapeT = 3/14`
(an odd vertex row). -/
theorem lod_fold_idempotent_witness :
    lodPositionT 1 (lodPositionT 1 (3/14)) = lodPositionT 1 (3/14) :=
  (lod_fold_idempotent 1 (3/14) (by norm_num) (by norm_num)).2.2

-- ============================================================================
-- Real-valued embedding of the compute shader (grassComputeShader.glsl)
-- ============================================================================

noncomputable section

/-- `#define PI 3.14159265359` from the compute shader. -/
def glslPI : ℝ := 3.14159265359

/-- `#define TWO_PI 6.28318530718` from the compute shader. -/
def glslTwoPI : ℝ := 6.28318530718

/-- GLSL `clamp` over ℝ. -/
def clampR (x lo hi : ℝ) : ℝ := min (max x lo) hi

/-- GLSL `mix(x, y, a)` over ℝ. -/
def mixR (x y a : ℝ) : ℝ := x * (1 - a) + y * a

/-- GLSL `dot` on 2D vectors. -/
def dot2 (a b : ℝ × ℝ) : ℝ := a.1 * b.1 + a.2 * b.2

/-- GLSL `fract(x) = x - floor(x)`. -/
def fractR (x : ℝ) : ℝ := x - ⌊x⌋

/-- GLSL two-argument `atan(y, x)`, i.e. atan2, modelled by the complex
argument of `x + i y` (range `(-π, π]`). -/
def atan2 (y x : ℝ) : ℝ := Complex.arg ⟨x, y⟩

/-- `hash11(x) = fract(sin(x * 37.0) * 43758.5453123)` from the compute
shader. -/
def hash11 (x : ℝ) : ℝ := fractR (Real.sin (x * 37.0) * 43758.5453123)

/-- `hash21(p)` from the compute shader: two `hash11` taps on dot-product
mixes of `p`. -/
def hash21 (p : ℝ × ℝ) : ℝ × ℝ :=
  (hash11 (dot2 p (127.1, 311.7)), hash11 (dot2 p (269.5, 183.3)))

/-- `hash2(p) = fract(sin(vec2(dot(p,...), dot(p,...))) * 43758.5453)` from
the compute shader. -/
def hash2v (p : ℝ × ℝ) : ℝ × ℝ :=
  (fractR (Real.sin (dot2 p (127.1, 311.7)) * 43758.5453),
   fractR (Real.sin (dot2 p (269.5, 183.3)) * 43758.5453))

/-- `safeNormalize` from the compute shader:
`m2 > 1e-6 ? v * inversesqrt(m2) : vec2(1.0, 0.0)`. -/
def safeNormalize (v : ℝ × ℝ) : ℝ × ℝ :=
  let m2 := dot2 v v
  if 1e-6 < m2 then (v.1 * (Real.sqrt m2)⁻¹, v.2 * (Real.sqrt m2)⁻¹) else (1, 0)

/-- `normalizeAngle(angle) = atan(sin(angle), cos(angle))`, wrapping to
`[-π, π]`. -/
def normalizeAngle (angle : ℝ) : ℝ := atan2 (Real.sin angle) (Real.cos angle)

/-- The configuration uniforms of the compute pass. -/
structure ComputeUniforms where
  bladeHeightMin : ℝ
  bladeHeightMax : ℝ
  bladeWidthMin : ℝ
  bladeWidthMax : ℝ
  bendAmountMin : ℝ
  bendAmountMax : ℝ
  clumpSize : ℝ
  clumpRadius : ℝ
  uCenterYaw : ℝ
  uBladeYaw : ℝ
  uClumpYaw : ℝ
  uBladeRandomness : ℝ × ℝ × ℝ
  uTypeTrendScale : ℝ
  uWindFacing : ℝ
  uTime : ℝ
  uWindScale : ℝ
  uWindSpeed : ℝ
  uWindStrength : ℝ
  uWindDir : ℝ × ℝ

/-- The noise functions included from the external `fractal.glsl` of
`@packages/r3f-gist` (not part of this repository's sources); they are passed
as explicit parameters of the embedding. -/
structure NoiseFns where
  simplexNoise2d : ℝ × ℝ → ℝ
  fbm2 : ℝ × ℝ → ℝ → ℝ

/-- A GLSL `vec4`. -/
structure Vec4 where
  x : ℝ
  y : ℝ
  z : ℝ
  w : ℝ

/-- The three render targets written per blade by the compute shader. -/
structure BladeRecord where
  bladeParams : Vec4
  clumpData : Vec4
  motionSeeds : Vec4

/-- The fixed row-major 3×3 neighborhood traversal order of `getClumpInfo`
(inner loop over `i`, outer loop over `j`, both from -1 to 1). -/
def clumpNeighborhood : List (ℝ × ℝ) :=
  [(-1, -1), (0, -1), (1, -1), (-1, 0), (0, 0), (1, 0), (-1, 1), (0, 1), (1, 1)]

/-- `getClumpInfo(worldXZ)` from the compute shader: Voronoi nearest-seed
search over the 3×3 cell neighborhood, keeping the strictly smaller squared
distance; returns `(distToCenter, cellId)`. -/
def getClumpInfo (clumpSize : ℝ) (worldXZ : ℝ × ℝ) : ℝ × (ℝ × ℝ) :=
  let cell : ℝ × ℝ := (worldXZ.1 / clumpSize, worldXZ.2 / clumpSize)
  let baseCell : ℝ × ℝ := ((⌊cell.1⌋ : ℤ), (⌊cell.2⌋ : ℤ))
  let best := clumpNeighborhood.foldl
    (fun acc off =>
      let neighborCell : ℝ × ℝ := (baseCell.1 + off.1, baseCell.2 + off.2)
      let seed := hash2v neighborCell
      let seedCoord : ℝ × ℝ := (neighborCell.1 + seed.1, neighborCell.2 + seed.2)
      let diff : ℝ × ℝ := (cell.1 - seedCoord.1, cell.2 - seedCoord.2)
      let d2 := dot2 diff diff
      if d2 < acc.1 then (d2, neighborCell) else acc)
    ((1e9 : ℝ), ((0 : ℝ), (0 : ℝ)))
  (Real.sqrt best.1 * clumpSize, best.2)

/-- `calculateToCenter(worldXZ, cellId)` from the compute shader: unit vector
toward the clump seed point, with fallback `(1,0)` when the length is at most
`1e-5`. -/
def calculateToCenter (clumpSize : ℝ) (worldXZ cellId : ℝ × ℝ) : ℝ × ℝ :=
  let clumpSeed := hash2v cellId
  let clumpCenterWorld : ℝ × ℝ :=
    ((cellId.1 + clumpSeed.1) * clumpSize, (cellId.2 + clumpSeed.2) * clumpSize)
  let dir : ℝ × ℝ := (clumpCenterWorld.1 - worldXZ.1, clumpCenterWorld.2 - worldXZ.2)
  let len := Real.sqrt (dot2 dir dir)
  if 1e-5 < len then (dir.1 / len, dir.2 / len) else (1, 0)

/-- `calculatePresence(distToCenter)` from the compute shader: clamp the
normalized distance, smoothstep it over `[0.7, 1.0]` (written out as the
Hermite polynomial in the source) and return one minus the result. -/
def calculatePresence (clumpRadius distToCenter : ℝ) : ℝ :=
  let r := clampR (distToCenter / clumpRadius) 0 1
  let t := clampR ((r - 0.7) / (1 - 0.7)) 0 1
  let smoothstepVal := t * t * (3 - 2 * t)
  1 - smoothstepVal

/-- `getClumpParams(cellId)` from the compute shader: per-clump base height,
width, bend and type trend. -/
def getClumpParams (u : ComputeUniforms) (n : NoiseFns) (cellId : ℝ × ℝ) : Vec4 :=
  let c1 := hash21 (cellId.1 * 11.0, cellId.2 * 11.0)
  let c2 := hash21 (cellId.1 * 23.0, cellId.2 * 23.0)
  let clumpBaseHeight := mixR u.bladeHeightMin u.bladeHeightMax c1.1
  let clumpBaseWidth := mixR u.bladeWidthMin u.bladeWidthMax c1.2
  let clumpBaseBend := mixR u.bendAmountMin u.bendAmountMax c2.1
  let typeTrend :=
    n.simplexNoise2d (cellId.1 * u.uTypeTrendScale, cellId.2 * u.uTypeTrendScale)
  ⟨clumpBaseHeight, clumpBaseWidth, clumpBaseBend, typeTrend * 0.5 + 0.5⟩

/-- `getBladeParams(seed, clumpParams)` from the compute shader: per-blade
jitter of the clump parameters by the configured randomness multipliers. -/
def getBladeParams (u : ComputeUniforms) (seed : ℝ × ℝ) (clumpParams : Vec4) : Vec4 :=
  let h1 := hash21 (seed.1 * 13.0, seed.2 * 13.0)
  let h2 := hash21 (seed.1 * 29.0, seed.2 * 29.0)
  let height := clumpParams.x *
    mixR (1 - u.uBladeRandomness.1) (1 + u.uBladeRandomness.1) h1.1
  let width := clumpParams.y *
    mixR (1 - u.uBladeRandomness.2.1) (1 + u.uBladeRandomness.2.1) h1.2
  let bend := clumpParams.z *
    mixR (1 - u.uBladeRandomness.2.2) (1 + u.uBladeRandomness.2.2) h2.1
  ⟨height, width, bend, clumpParams.w⟩

/-- `calculateBaseAngle(toCenter, worldXZ, cellId, perBladeHash01)` from the
compute shader: clump-center angle term plus a per-blade random offset plus a
per-clump yaw. -/
def calculateBaseAngle (u : ComputeUniforms) (toCenter worldXZ cellId : ℝ × ℝ)
    (perBladeHash01 : ℝ) : ℝ :=
  let clumpAngle := atan2 toCenter.2 toCenter.1 * u.uCenterYaw
  let randomOffset := (perBladeHash01 - 0.5) * u.uBladeYaw
  let clumpHash := hash11 (dot2 cellId (9.7, 3.1))
  let clumpYaw := (clumpHash - 0.5) * u.uClumpYaw
  clumpAngle + randomOffset + clumpYaw

/-- `applyWindFacing(baseAngle, windDir, windStrength01)` from the compute
shader: shortest-angle-difference blend toward the wind angle. -/
def applyWindFacing (u : ComputeUniforms) (baseAngle : ℝ) (windDir : ℝ × ℝ)
    (windStrength01 : ℝ) : ℝ :=
  let windAngle := atan2 windDir.2 windDir.1
  let angleDiff :=
    atan2 (Real.sin (windAngle - baseAngle)) (Real.cos (windAngle - baseAngle))
  baseAngle + angleDiff * (u.uWindFacing * windStrength01)

/-- `applyWindFacingAndNormalize` from the compute shader: blend toward the
wind, wrap to `[-π, π]`, then remap to `[0, 1]`. -/
def applyWindFacingAndNormalize (u : ComputeUniforms) (baseAngle : ℝ)
    (windDir : ℝ × ℝ) (windStrength01 : ℝ) : ℝ :=
  (normalizeAngle (applyWindFacing u baseAngle windDir windStrength01) + glslPI)
    / glslTwoPI

/-- `calculateWindStrength(worldXZ)` from the compute shader: sample the
fractal noise field displaced along the wind over time, scale by
`uWindStrength`, clamp to `[0,1]`. -/
def calculateWindStrength (u : ComputeUniforms) (n : NoiseFns)
    (worldXZ : ℝ × ℝ) : ℝ :=
  let windDir := safeNormalize u.uWindDir
  let windUv : ℝ × ℝ :=
    (worldXZ.1 * u.uWindScale + windDir.1 * u.uTime * u.uWindSpeed,
     worldXZ.2 * u.uWindScale + windDir.2 * u.uTime * u.uWindSpeed)
  let windStrength01 := n.fbm2 windUv 0.0
  clampR (windStrength01 * u.uWindStrength) 0 1

/-- `main` of the compute shader: synthesize the full per-blade record from
the blade's world XZ position, the configuration uniforms and the noise
functions. -/
def computeMain (u : ComputeUniforms) (n : NoiseFns) (worldXZ : ℝ × ℝ) :
    BladeRecord :=
  let clumpInfo := getClumpInfo u.clumpSize worldXZ
  let distToCenter := clumpInfo.1
  let cellId := clumpInfo.2
  let toCenter := calculateToCenter u.clumpSize worldXZ cellId
  let presence := calculatePresence u.clumpRadius distToCenter
  let clumpParams := getClumpParams u n cellId
  let bladeParams := getBladeParams u worldXZ clumpParams
  let perBladeHash01 := hash11 (dot2 worldXZ (37.0, 17.0))
  let lodSeed01 := hash11 (dot2 worldXZ (19.3, 53.7))
  let clumpSeed01 := hash11 (dot2 cellId (47.3, 61.7))
  let baseAngle := calculateBaseAngle u toCenter worldXZ cellId perBladeHash01
  let windStrength := calculateWindStrength u n worldXZ
  let windDir := safeNormalize u.uWindDir
  let facingAngle01 := applyWindFacingAndNormalize u baseAngle windDir windStrength
  { bladeParams := bladeParams
    clumpData := ⟨toCenter.1, toCenter.2, presence, clumpSeed01⟩
    motionSeeds := ⟨facingAngle01, perBladeHash01, windStrength, lodSeed01⟩ }

-- ============================================================================
-- utils.ts: seeded random grid positions (createPositionTexture)
-- ============================================================================

/-- `seededRandom(seed)` from `utils.ts`:
`x = Math.sin(seed) * 10000; return x - Math.floor(x)`. -/
def seededRandom (seed : ℝ) : ℝ :=
  Real.sin seed * 10000 - ⌊Real.sin seed * 10000⌋

/-- The per-cell seed `(x * 7919 + z * 7919) * 0.0001` from `utils.ts`. -/
def gridSeed (x z : ℕ) : ℝ := ((x : ℝ) * 7919 + (z : ℝ) * 7919) * 0.0001

/-- `jitterX = (seededRandom(seed) - 0.5) * 0.2` from `utils.ts`. -/
def jitterX (x z : ℕ) : ℝ := (seededRandom (gridSeed x z) - 0.5) * 0.2

/-- `jitterZ = (seededRandom(seed + 1.0) - 0.5) * 0.2` from `utils.ts`. -/
def jitterZ (x z : ℕ) : ℝ := (seededRandom (gridSeed x z + 1.0) - 0.5) * 0.2

/-- `px = (x / gridSize - 0.5) * patchSize + jitterX` from
`createPositionTexture` / `createGrassGeometry` in `utils.ts`. -/
def basePosX (gridSize patchSize : ℝ) (x z : ℕ) : ℝ :=
  ((x : ℝ) / gridSize - 0.5) * patchSize + jitterX x z

/-- `pz = (z / gridSize - 0.5) * patchSize + jitterZ` from
`createPositionTexture` / `createGrassGeometry` in `utils.ts`. -/
def basePosZ (gridSize patchSize : ℝ) (x z : ℕ) : ℝ :=
  ((z : ℝ) / gridSize - 0.5) * patchSize + jitterZ x z

-- ============================================================================
-- Render stage: width taper and facing rotation
-- ============================================================================

/-- `widthFactor = (shapeT + uGeometryBaseWidth) * pow(1.0 - shapeT,
uGeometryTipThin)` from `grassVertex.glsl`. -/
def widthFactor (baseWidth tipThin shapeT : ℝ) : ℝ :=
  (shapeT + baseWidth) * (1 - shapeT) ^ tipThin

/-- The scalar coefficient of the sideways offset
`side * (width * densityCompensation) * widthFactor * s * finalPresence`
added to the spine in `grassVertex.glsl`. -/
def widthOffsetScale (width densityCompensation wFactor s presenceFinal : ℝ) : ℝ :=
  width * densityCompensation * wFactor * s * presenceFinal

/-- Modelled from the spec: `rotate2D` comes from the external
`@packages/r3f-gist` `utility.glsl` include, which is not part of this
repository's sources; per §4.6 of the spec it rotates a 2D vector about the
origin by an angle given in radians. -/
def rotate2D (v : ℝ × ℝ) (angle : ℝ) : ℝ × ℝ :=
  (v.1 * Real.cos angle - v.2 * Real.sin angle,
   v.1 * Real.sin angle + v.2 * Real.cos angle)

/-- Modelled from the spec: `mx_rotate2d` is the MaterialX rotation helper
imported from `three/tsl`, which is not part of this repository's sources; it
performs the same planar rotation with its amount given in degrees,
converting degrees to radians. -/
def mx_rotate2d (v : ℝ × ℝ) (amountDeg : ℝ) : ℝ × ℝ :=
  let a := amountDeg * (Real.pi / 180)
  (v.1 * Real.cos a - v.2 * Real.sin a,
   v.1 * Real.sin a + v.2 * Real.cos a)

/-- The spec's plain notion of "v scaled to unit length", used to compare
`safeNormalize` against: divide each component by the Euclidean length. -/
def normalizeSpec (v : ℝ × ℝ) : ℝ × ℝ :=
  (v.1 / Real.sqrt (dot2 v v), v.2 / Real.sqrt (dot2 v v))

/-- Zero noise functions, used to instantiate the embedding at concrete
inputs. -/
def noiseZero : NoiseFns := ⟨fun _ => 0, fun _ _ => 0⟩

/-- A concrete configuration with wind strength zero, used to instantiate the
embedding at concrete inputs. -/
def uniformsZeroWind : ComputeUniforms :=
  { bladeHeightMin := 0.4, bladeHeightMax := 0.8
    bladeWidthMin := 0.01, bladeWidthMax := 0.05
    bendAmountMin := 0.1, bendAmountMax := 0.6
    clumpSize := 0.8, clumpRadius := 1.5
    uCenterYaw := 0.3, uBladeYaw := 0.6, uClumpYaw := 0.4
    uBladeRandomness := (0.2, 0.2, 0.2)
    uTypeTrendScale := 0.1
    uWindFacing := 0.6, uTime := 1, uWindScale := 0.15, uWindSpeed := 1
    uWindStrength := 0
    uWindDir := (1, 0) }

end

-- ============================================================================
-- C1: the compute stage is a pure function of its inputs
-- ============================================================================

/-- C1: blade-parameter synthesis is deterministic — for equal world
positions, equal configuration uniforms (including elapsed time) and equal
noise fields, two evaluations of the compute stage produce identical
BladeRecords; there is no hidden or per-frame mutable state in the
embedding. -/
theorem compute_deterministic (u₁ u₂ : ComputeUniforms) (n₁ n₂ : NoiseFns)
    (p₁ p₂ : ℝ × ℝ) (hu : u₁ = u₂) (hn : n₁ = n₂) (hp : p₁ = p₂) :
    computeMain u₁ n₁ p₁ = computeMain u₂ n₂ p₂ := by
  rw [hu, hn, hp]

/-- Witness for C1 at a concrete configuration, noise field and position. -/
theorem compute_deterministic_witness :
    computeMain uniformsZeroWind noiseZero (0, 0) =
      computeMain uniformsZeroWind noiseZero (0, 0) :=
  compute_deterministic uniformsZeroWind uniformsZeroWind noiseZero noiseZero
    (0, 0) (0, 0) rfl rfl rfl

-- ============================================================================
-- C3: presence is non-increasing in distance and zero beyond the radius
-- ============================================================================

theorem clampR_le (x lo hi : ℝ) : clampR x lo hi ≤ hi := min_le_right _ _

theorem le_clampR (x lo hi : ℝ) (h : lo ≤ hi) : lo ≤ clampR x lo hi :=
  le_min (le_max_right _ _) h

theorem clampR_mono (x y lo hi : ℝ) (h : x ≤ y) : clampR x lo hi ≤ clampR y lo hi :=
  min_le_min (max_le_max h le_rfl) le_rfl

/-- The Hermite polynomial is monotone on `[0,1]`, over ℝ. -/
theorem hermite_mono_real (a b : ℝ) (ha : 0 ≤ a) (hab : a ≤ b) (hb : b ≤ 1) :
    a * a * (3 - 2 * a) ≤ b * b * (3 - 2 * b) := by
  nlinarith [sq_nonneg (b - a), sq_nonneg (a + b), mul_nonneg ha (sub_nonneg.mpr hab)]

theorem calculatePresence_antitone (clumpRadius : ℝ) (hr : 0 < clumpRadius)
    (d₁ d₂ : ℝ) (h12 : d₁ ≤ d₂) :
    calculatePresence clumpRadius d₂ ≤ calculatePresence clumpRadius d₁ := by
  simp only [calculatePresence]
  have hdiv : d₁ / clumpRadius ≤ d₂ / clumpRadius := by gcongr
  have hrr : clampR (d₁ / clumpRadius) 0 1 ≤ clampR (d₂ / clumpRadius) 0 1 :=
    clampR_mono _ _ _ _ hdiv
  have hq : (clampR (d₁ / clumpRadius) 0 1 - 0.7) / (1 - 0.7) ≤
      (clampR (d₂ / clumpRadius) 0 1 - 0.7) / (1 - 0.7) := by
    gcongr
  have ht12 : clampR ((clampR (d₁ / clumpRadius) 0 1 - 0.7) / (1 - 0.7)) 0 1 ≤
      clampR ((clampR (d₂ / clumpRadius) 0 1 - 0.7) / (1 - 0.7)) 0 1 :=
    clampR_mono _ _ _ _ hq
  have h0 : (0:ℝ) ≤ clampR ((clampR (d₁ / clumpRadius) 0 1 - 0.7) / (1 - 0.7)) 0 1 :=
    le_clampR _ _ _ (by norm_num)
  have h1 : clampR ((clampR (d₂ / clumpRadius) 0 1 - 0.7) / (1 - 0.7)) 0 1 ≤ 1 :=
    clampR_le _ _ _
  have := hermite_mono_real _ _ h0 ht12 h1
  linarith

theorem calculatePresence_zero (clumpRadius d : ℝ) (hr : 0 < clumpRadius)
    (hd : clumpRadius ≤ d) : calculatePresence clumpRadius d = 0 := by
  have h1 : (1:ℝ) ≤ d / clumpRadius := (one_le_div hr).mpr hd
  have hc : clampR (d / clumpRadius) 0 1 = 1 := by
    unfold clampR
    rw [max_eq_left (by linarith), min_eq_right h1]
  have hval : ((1:ℝ) - 0.7) / (1 - 0.7) = 1 := by norm_num
  have hc2 : clampR ((1:ℝ)) 0 1 = 1 := by
    unfold clampR
    rw [max_eq_left (by norm_num), min_self]
  simp only [calculatePresence, hc, hval, hc2]
  norm_num

/-- C3: for every fixed `clumpRadius > 0`, the presence factor of the compute
shader is non-increasing in the distance to the clump center, and equals `0`
at every distance at or beyond `clumpRadius`. -/
theorem presence_antitone_and_zero (clumpRadius d₁ d₂ d : ℝ) (hr : 0 < clumpRadius) :
    (0 ≤ d₁ → d₁ ≤ d₂ →
      calculatePresence clumpRadius d₂ ≤ calculatePresence clumpRadius d₁) ∧
    (clumpRadius ≤ d → calculatePresence clumpRadius d = 0) :=
  ⟨fun _ h12 => calculatePresence_antitone clumpRadius hr d₁ d₂ h12,
   fun hd => calculatePresence_zero clumpRadius d hr hd⟩

/-- Witness for C3 at `clumpRadius = 2`, distances `1 ≤ 3/2` and `d = 5`. -/
theorem presence_antitone_and_zero_witness :
    calculatePresence 2 (3/2) ≤ calculatePresence 2 1 ∧ calculatePresence 2 5 = 0 :=
  ⟨(presence_antitone_and_zero 2 1 (3/2) 5 (by norm_num)).1 (by norm_num) (by norm_num),
   (presence_antitone_and_zero 2 1 (3/2) 5 (by norm_num)).2 (by norm_num)⟩

-- ============================================================================
-- C7: zero wind strength leaves the facing angle at its pre-wind base value
-- ============================================================================

/-- C7: when the configured wind strength is `0`, the sampled wind strength of
every blade is `0` and the output facing angle is exactly the wrapped and
`[0,1]`-normalized pre-wind base angle (clump-center term + per-blade random
offset + per-clump yaw) — the wind blending term contributes nothing. -/
theorem zero_wind_facing (u : ComputeUniforms) (n : NoiseFns) (w : ℝ × ℝ)
    (h : u.uWindStrength = 0) :
    (computeMain u n w).motionSeeds.z = 0 ∧
    (computeMain u n w).motionSeeds.x =
      (normalizeAngle
        (calculateBaseAngle u
          (calculateToCenter u.clumpSize w (getClumpInfo u.clumpSize w).2)
          w (getClumpInfo u.clumpSize w).2
          (hash11 (dot2 w (37.0, 17.0)))) + glslPI) / glslTwoPI := by
  have hws : calculateWindStrength u n w = 0 := by
    simp only [calculateWindStrength, h, mul_zero]
    unfold clampR
    rw [max_self, min_eq_left (by norm_num)]
  have hfacing : ∀ baseAngle windDir,
      applyWindFacing u baseAngle windDir 0 = baseAngle := by
    intro baseAngle windDir
    simp [applyWindFacing]
  constructor
  · simp only [computeMain, hws]
  · simp only [computeMain, hws, applyWindFacingAndNormalize, hfacing]

/-- Witness for C7 at a concrete zero-wind configuration and position. -/
theorem zero_wind_facing_witness :
    (computeMain uniformsZeroWind noiseZero (0, 0)).motionSeeds.z = 0 :=
  (zero_wind_facing uniformsZeroWind noiseZero (0, 0) rfl).1

-- ============================================================================
-- C9: width taper vanishes at the blade tip
-- ============================================================================

/-- C9: for every `tipThin > 0` and every `baseWidth`, the width-taper factor
`(shapeT + baseWidth) * (1 - shapeT)^tipThin` is `0` at the tip `shapeT = 1`,
so the sideways width offset added to the spine is `0` there regardless of
blade width, density compensation, side sign and final presence. -/
theorem width_taper_tip (baseWidth tipThin width dc s fp : ℝ) (h : 0 < tipThin) :
    widthFactor baseWidth tipThin 1 = 0 ∧
    widthOffsetScale width dc (widthFactor baseWidth tipThin 1) s fp = 0 := by
  have hz : widthFactor baseWidth tipThin 1 = 0 := by
    unfold widthFactor
    rw [sub_self, Real.zero_rpow (ne_of_gt h), mul_zero]
  exact ⟨hz, by rw [widthOffsetScale, hz]; ring⟩

/-- Witness for C9 at the configured defaults `baseWidth = 0.35`,
`tipThin = 0.9`. -/
theorem width_taper_tip_witness : widthFactor 0.35 0.9 1 = 0 :=
  (width_taper_tip 0.35 0.9 1 1 1 1 (by norm_num)).1

-- ============================================================================
-- C10: the GLSL and TSL facing rotations agree
-- ============================================================================

/-- C10: for every `facingAngle01`, rotating by `facingAngle01 * PI * 2.0`
radians (GLSL render variant) and by `facingAngle01 * 360.0` degrees
(TSL/WebGPU render variant via `mx_rotate2d`) is the same planar rotation on
every vector. -/
theorem facing_rotation_variants_agree (facingAngle01 : ℝ) (v : ℝ × ℝ) :
    rotate2D v (facingAngle01 * Real.pi * 2) = mx_rotate2d v (facingAngle01 * 360) := by
  simp only [rotate2D, mx_rotate2d]
  rw [show facingAngle01 * 360 * (Real.pi / 180) = facingAngle01 * Real.pi * 2 by ring]

-- ============================================================================
-- C2: grid position plus hash-derived jitter; bound on the jitter magnitude
-- ============================================================================

theorem seededRandom_mem (s : ℝ) : 0 ≤ seededRandom s ∧ seededRandom s < 1 := by
  unfold seededRandom
  constructor
  · linarith [Int.floor_le (Real.sin s * 10000)]
  · linarith [Int.lt_floor_add_one (Real.sin s * 10000)]

theorem seeded_jitter_abs_le (s : ℝ) : |(seededRandom s - 0.5) * 0.2| ≤ 1/10 := by
  obtain ⟨h0, h1⟩ := seededRandom_mem s
  rw [abs_mul, abs_of_nonneg (by norm_num : (0:ℝ) ≤ 0.2)]
  have h2 : |seededRandom s - 0.5| ≤ 1/2 := abs_le.mpr ⟨by linarith, by linarith⟩
  have h3 := mul_le_mul_of_nonneg_right h2 (by norm_num : (0:ℝ) ≤ 0.2)
  linarith

/-- C2 counterexample: at grid size 64, patch size 8 and cell `(0,0)` the
jitter in x is exactly `-0.1` world units, which exceeds 10% of the cell
spacing `8/64 = 0.125` (10% of which is `0.0125`). -/
theorem grid_jitter_cex :
    basePosX 64 8 0 0 - (((0:ℕ) : ℝ) / 64 - 0.5) * 8 = -(1/10) ∧
    ¬ (|basePosX 64 8 0 0 - (((0:ℕ) : ℝ) / 64 - 0.5) * 8| ≤ 1/10 * (8 / 64)) := by
  have hj : jitterX 0 0 = -(1/10) := by
    unfold jitterX seededRandom gridSeed
    norm_num
  have hb : basePosX 64 8 0 0 - (((0:ℕ) : ℝ) / 64 - 0.5) * 8 = jitterX 0 0 := by
    unfold basePosX
    ring
  rw [hb, hj]
  refine ⟨rfl, ?_⟩
  rw [abs_neg, abs_of_nonneg (by norm_num : (0:ℝ) ≤ 1/10)]
  norm_num

/-- C2 amended: every blade's base position is the regular-grid point
`((x/G - 0.5)·P, (z/G - 0.5)·P)` plus a deterministic hash-derived jitter
whose magnitude in each axis is bounded by the fixed amount `0.1` world units
(not by 10% of the cell spacing `P/G`). -/
theorem grid_jitter_bound (gridSize patchSize : ℝ) (x z : ℕ) :
    basePosX gridSize patchSize x z =
      ((x : ℝ) / gridSize - 0.5) * patchSize + jitterX x z ∧
    basePosZ gridSize patchSize x z =
      ((z : ℝ) / gridSize - 0.5) * patchSize + jitterZ x z ∧
    |jitterX x z| ≤ 1/10 ∧ |jitterZ x z| ≤ 1/10 :=
  ⟨rfl, rfl, seeded_jitter_abs_le _, seeded_jitter_abs_le _⟩

-- ============================================================================
-- C8: safeNormalize totality and the exact fallback boundary
-- ============================================================================

/-- C8 counterexample: at `v = (0, 1/1000)` the squared length is exactly
`1e-6`, which is not below `1e-6`, yet `safeNormalize` returns the fallback
`(1,0)` instead of `v` scaled to unit length (which would be `(0,1)`). -/
theorem safe_normalize_cex :
    ¬ (dot2 ((0:ℝ), 1/1000) ((0:ℝ), 1/1000) < 1e-6) ∧
    safeNormalize ((0:ℝ), 1/1000) = (1, 0) ∧
    normalizeSpec ((0:ℝ), 1/1000) = (0, 1) ∧
    safeNormalize ((0:ℝ), 1/1000) ≠ normalizeSpec ((0:ℝ), 1/1000) := by
  have hm2 : dot2 ((0:ℝ), 1/1000) ((0:ℝ), 1/1000) = 1/1000000 := by
    norm_num [dot2]
  have hsn : safeNormalize ((0:ℝ), 1/1000) = (1, 0) := by
    simp only [safeNormalize, hm2]
    rw [if_neg (by norm_num)]
  have hsqrt : Real.sqrt (1/1000000) = 1/1000 := by
    rw [show (1/1000000 : ℝ) = (1/1000)^2 by norm_num, Real.sqrt_sq (by norm_num)]
  have hns : normalizeSpec ((0:ℝ), 1/1000) = (0, 1) := by
    simp only [normalizeSpec, hm2, hsqrt]
    norm_num
  refine ⟨by rw [hm2]; norm_num, hsn, hns, ?_⟩
  rw [hsn, hns]
  intro hcontra
  exact one_ne_zero (congrArg Prod.fst hcontra)

/-- C8 amended: for every finite 2D vector `v`, `safeNormalize v` is total:
whenever the squared length of `v` is at most `1e-6` (including `v = (0,0)`
and the boundary case) it returns the fixed fallback `(1,0)`, and whenever
the squared length is strictly above `1e-6` it returns `v` scaled to unit
length, a vector of norm 1 — so no division by zero (the NaN/Inf source)
ever occurs. -/
theorem safe_normalize_total (v : ℝ × ℝ) :
    (dot2 v v ≤ 1e-6 → safeNormalize v = (1, 0)) ∧
    (1e-6 < dot2 v v →
      safeNormalize v = normalizeSpec v ∧
      (safeNormalize v).1 ^ 2 + (safeNormalize v).2 ^ 2 = 1) := by
  constructor
  · intro h
    simp only [safeNormalize]
    rw [if_neg (not_lt.mpr h)]
  · intro h
    have hpos : 0 < dot2 v v := lt_trans (by norm_num) h
    have hsq : Real.sqrt (dot2 v v) ^ 2 = dot2 v v := Real.sq_sqrt hpos.le
    have heq : safeNormalize v =
        (v.1 * (Real.sqrt (dot2 v v))⁻¹, v.2 * (Real.sqrt (dot2 v v))⁻¹) := by
      simp only [safeNormalize]
      rw [if_pos h]
    refine ⟨?_, ?_⟩
    · rw [heq]
      unfold normalizeSpec
      rw [div_eq_mul_inv, div_eq_mul_inv]
    · rw [heq]
      have hexp : (v.1 * (Real.sqrt (dot2 v v))⁻¹) ^ 2 +
          (v.2 * (Real.sqrt (dot2 v v))⁻¹) ^ 2 =
          (v.1 ^ 2 + v.2 ^ 2) * (Real.sqrt (dot2 v v) ^ 2)⁻¹ := by
        ring
      rw [hexp, hsq]
      have hd : v.1 ^ 2 + v.2 ^ 2 = dot2 v v := by
        unfold dot2
        ring
      rw [hd, mul_inv_cancel₀ hpos.ne']

/-- Witness for C8 (amended) at `v = (0,0)` (degenerate) and `v = (3,4)`
(regular). -/
theorem safe_normalize_total_witness :
    safeNormalize ((0:ℝ), 0) = (1, 0) ∧
    (safeNormalize ((3:ℝ), 4)).1 ^ 2 + (safeNormalize ((3:ℝ), 4)).2 ^ 2 = 1 :=
  ⟨(safe_normalize_total (0, 0)).1 (by norm_num [dot2]),
   ((safe_normalize_total (3, 4)).2 (by norm_num [dot2])).2⟩
